import Mathlib

/-!
Shallow embedding of the conversation-state and context-window compaction
engine of the `aicli` repository (`src/aicli/conversation/`):

* `state.py`    — immutable value types `Message`, `TokenUsage`,
  `ContextWindow`, `ConversationState` and their transition functions.
* `context_window.py` — `SimpleTokenCounter`, `CompactionStrategy`,
  `CompactionResult`, `ConversationCompactor` (three strategies) and
  `ContextWindowManager`.
* `manager.py`  — `ConversationReducer`, `ValidationMiddleware`,
  `StateManager.dispatch`.
* `core.py`     — `ConversationManager.add_message`, `force_compaction`,
  `_on_state_change` (the auto-compaction subscription).

Modelling conventions:
* Python `str` stays `String`; `datetime.now()` timestamps become `Nat`
  clock values supplied explicitly by the caller (`now` parameters), as the
  code's only use of them is freshness / ordering.
* Metadata dictionary values and tool-call descriptors enter token counting
  only through `str(v)`; messages therefore carry the already-stringified
  values (`List String`), in dictionary / list order.  A `tool_calls` of
  `None` and of `[]` behave identically everywhere in the sources (both are
  falsy), so both are modelled by `[]`.
* Python ints are `Nat` where the source keeps them non-negative and `Int`
  where subtraction can go negative (budgets, `tokens_saved`).
* Float arithmetic: `int(words * 1.3)` and `int(max_tokens * (1 - ratio))`
  truncate IEEE-754 products.  For every realistic operand (below ~10^14)
  the truncated double product equals the exact rational floor, because the
  fractional parts involved are multiples of 1/10 ≥ 0.1 while the rounding
  error is below 10^-15 relative; the embedding uses the exact rational
  floor (`13 * w / 10`, `⌊max * (1 - ratio)⌋`).  Likewise
  `utilization >= compaction_threshold` is compared over `ℚ`.
-/

/-! ### `state.py` — the immutable data model -/

inductive MessageRole
  | user
  | assistant
  | system
  | tool
deriving DecidableEq, Repr

inductive ConversationStatus
  | active
  | paused
  | completed
  | error
deriving DecidableEq, Repr

/-- `Message` (state.py:25-51).  `metadata` holds the stringified metadata
values in dictionary order; `tool_calls` holds the stringified tool-call
descriptors (`[]` models Python `None` as well as an empty list, which the
sources never distinguish). -/
structure Message where
  id : Nat
  role : MessageRole
  content : String
  timestamp : Nat
  metadata : List String
  tool_calls : List String
deriving DecidableEq, Repr

/-- `TokenUsage` (state.py:54-67). -/
structure TokenUsage where
  prompt_tokens : Nat := 0
  completion_tokens : Nat := 0
  total_tokens : Nat := 0
deriving DecidableEq, Repr

/-- `TokenUsage.add` (state.py:61-67). -/
def TokenUsage.add (a b : TokenUsage) : TokenUsage where
  prompt_tokens := a.prompt_tokens + b.prompt_tokens
  completion_tokens := a.completion_tokens + b.completion_tokens
  total_tokens := a.total_tokens + b.total_tokens

/-- `ContextWindow` (state.py:70-85).  The threshold is a rational standing
for the float field (default `0.85 = 17/20`). -/
structure ContextWindow where
  max_tokens : Nat
  current_tokens : Nat
  compaction_threshold : ℚ := mkRat 17 20
deriving DecidableEq, Repr

/-- `ContextWindow.utilization` (state.py:77-80): `current / max`, `0.0`
when `max_tokens` is not positive.  (`mkRat` is the rational division
`(current : ℚ) / max` — see `ContextWindow.utilization_eq` below — written
so that the kernel can evaluate it.) -/
def ContextWindow.utilization (cw : ContextWindow) : ℚ :=
  if 0 < cw.max_tokens then mkRat (cw.current_tokens : Int) cw.max_tokens else 0

/-- `ContextWindow.needs_compaction` (state.py:82-85):
`utilization >= compaction_threshold`. -/
def ContextWindow.needs_compaction (cw : ContextWindow) : Bool :=
  decide (cw.compaction_threshold ≤ cw.utilization)

/-- `ConversationState` (state.py:88-117).  State-level metadata is the
association list of `update_metadata` insertions (values are the optional
payload values). -/
structure ConversationState where
  id : Nat
  messages : List Message
  status : ConversationStatus
  context_window : ContextWindow
  token_usage : TokenUsage
  metadata : List (String × Option String)
  created_at : Nat
  updated_at : Nat
deriving DecidableEq, Repr

/-- `ConversationState.create` (state.py:100-117). -/
def ConversationState.create (id : Nat) (max_tokens : Nat) (now : Nat) :
    ConversationState where
  id := id
  messages := []
  status := ConversationStatus.active
  context_window := { max_tokens := max_tokens, current_tokens := 0 }
  token_usage := {}
  metadata := []
  created_at := now
  updated_at := now

/-- `ConversationState.add_message` (state.py:119-134). -/
def ConversationState.add_message (st : ConversationState) (message : Message)
    (token_count : Nat) (now : Nat) : ConversationState :=
  { st with
    messages := st.messages ++ [message]
    token_usage := st.token_usage.add { total_tokens := token_count }
    context_window :=
      { st.context_window with
        current_tokens := st.context_window.current_tokens + token_count }
    updated_at := now }

/-- `ConversationState.update_status` (state.py:136-142). -/
def ConversationState.update_status (st : ConversationState)
    (status : ConversationStatus) (now : Nat) : ConversationState :=
  { st with status := status, updated_at := now }

/-- `ConversationState.compact` (state.py:144-154). -/
def ConversationState.compact (st : ConversationState)
    (new_messages : List Message) (new_token_count : Nat) (now : Nat) :
    ConversationState :=
  { st with
    messages := new_messages
    context_window :=
      { st.context_window with current_tokens := new_token_count }
    updated_at := now }

/-- `ConversationState.update_metadata` (state.py:156-163). -/
def ConversationState.update_metadata (st : ConversationState) (key : String)
    (value : Option String) (now : Nat) : ConversationState :=
  { st with metadata := st.metadata ++ [(key, value)], updated_at := now }

/-! ### `context_window.py` — token counting -/

/-- Scan of a character list counting maximal non-whitespace runs
(`inWord` tracks whether the previous character was inside a word). -/
def wordCountAux : List Char → Bool → Nat → Nat
  | [], _, n => n
  | c :: rest, inWord, n =>
    if c.isWhitespace then wordCountAux rest false n
    else if inWord then wordCountAux rest true n
    else wordCountAux rest true (n + 1)

/-- Number of whitespace-separated words of a string: Python `len(text.split())`
(`str.split()` with no argument splits on runs of whitespace and drops empty
pieces, so it returns exactly the maximal non-whitespace runs). -/
def wordCount (s : String) : Nat :=
  wordCountAux s.toList false 0

namespace SimpleTokenCounter

/-- `SimpleTokenCounter.count_tokens` (context_window.py:33-36):
`int(words * 1.3)`.  The float product truncates to `⌊13 * words / 10⌋`
(exactly, for every realistic word count — see the file header). -/
def count_tokens (text : String) : Nat :=
  13 * wordCount text / 10

/-- `SimpleTokenCounter.count_message_tokens` (context_window.py:38-54),
with the source's truthiness guards on `metadata` and `tool_calls`. -/
def count_message_tokens (message : Message) : Nat :=
  let base_tokens := count_tokens message.content
  let role_tokens := 2
  let metadata_tokens :=
    if message.metadata.isEmpty then 0
    else (message.metadata.map (fun v => count_tokens v)).sum
  let tool_tokens :=
    if message.tool_calls.isEmpty then 0
    else message.tool_calls.foldl (fun acc tc => acc + count_tokens tc) 0
  base_tokens + role_tokens + metadata_tokens + tool_tokens

end SimpleTokenCounter

/-! ### `context_window.py` — compaction strategies

The compactor is parametrised by the token counter `tc` (the constructor
argument `token_counter`); `SimpleTokenCounter.count_message_tokens` is the
reference instance. -/

/-- `CompactionStrategy` (context_window.py:57-65).  `max_compaction_ratio`
is a rational standing for the float field (default `0.7`). -/
structure CompactionStrategy where
  name : String
  priority : Int
  preserve_recent_messages : Nat := 5
  preserve_system_messages : Bool := true
  preserve_tool_results : Bool := true
  max_compaction_ratio : ℚ := mkRat 7 10
deriving DecidableEq, Repr

/-- `CompactionResult` (context_window.py:68-84), without the derived float
`compaction_ratio` statistic (no claim mentions it). -/
structure CompactionResult where
  original_messages : List Message
  compacted_messages : List Message
  tokens_saved : Int
  strategy_used : String
deriving DecidableEq, Repr

/-- `sum(token_counter.count_message_tokens(msg) for msg in l)`. -/
def sumMessageTokens (tc : Message → Nat) (l : List Message) : Nat :=
  (l.map tc).sum

/-- Python `l[-n:]` (used for `recent_messages`, context_window.py:142):
the whole list when `n == 0` (since `-0 == 0`), otherwise the last `n`
elements. -/
def sliceLast (l : List Message) (n : Nat) : List Message :=
  if n = 0 then l else l.drop (l.length - n)

/-- Python `l[a:-n]` (used for `middle_messages`, context_window.py:158):
empty when `n == 0`, otherwise elements `a, …, len-n-1`. -/
def sliceMiddle (l : List Message) (a n : Nat) : List Message :=
  if n = 0 then [] else (l.take (l.length - n)).drop a

/-- The greedy `for msg in reversed(...)` selection loop shared by
`_chronological_compaction` (context_window.py:162-168) and
`_tool_context_compaction` (context_window.py:218-224): scan `rev` (the
reversed candidate list), prepend each message whose tokens still fit the
budget, break at the first that does not. -/
def greedyFillGo (tc : Message → Nat) (budget : Int) :
    List Message → Int → List Message → List Message
  | [], _, acc => acc
  | m :: rest, current_tokens, acc =>
    if current_tokens + (tc m : Int) ≤ budget then
      greedyFillGo tc budget rest (current_tokens + (tc m : Int)) (m :: acc)
    else acc

/-- `ConversationCompactor._chronological_compaction`
(context_window.py:125-170). -/
def chronological_compaction (tc : Message → Nat) (messages : List Message)
    (target_tokens : Int) (strategy : CompactionStrategy) : List Message :=
  if messages.length ≤ strategy.preserve_recent_messages then messages
  else
    let system_messages := messages.filter fun msg =>
      (msg.role == MessageRole.system) && strategy.preserve_system_messages
    let recent_messages := sliceLast messages strategy.preserve_recent_messages
    let system_tokens := sumMessageTokens tc system_messages
    let recent_tokens := sumMessageTokens tc recent_messages
    let remaining_budget : Int :=
      target_tokens - (system_tokens : Int) - (recent_tokens : Int)
    if remaining_budget ≤ 0 then system_messages ++ recent_messages
    else
      let middle_messages :=
        sliceMiddle messages system_messages.length strategy.preserve_recent_messages
      let selected_middle := greedyFillGo tc remaining_budget middle_messages.reverse 0 []
      system_messages ++ selected_middle ++ recent_messages

/-- `ConversationCompactor._semantic_compaction` (context_window.py:172-181):
falls back to chronological compaction. -/
def semantic_compaction (tc : Message → Nat) (messages : List Message)
    (target_tokens : Int) (strategy : CompactionStrategy) : List Message :=
  chronological_compaction tc messages target_tokens strategy

/-- The partition predicate of `_tool_context_compaction`
(context_window.py:193-199): tool role, truthy `tool_calls`, or system role
with `preserve_system_messages`. -/
def importantPred (strategy : CompactionStrategy) (msg : Message) : Bool :=
  (msg.role == MessageRole.tool) || (!msg.tool_calls.isEmpty) ||
    ((msg.role == MessageRole.system) && strategy.preserve_system_messages)

/-- Boolean timestamp comparison, the `key=lambda msg: msg.timestamp` sort
order of context_window.py:228. -/
def tsLe (a b : Message) : Bool :=
  decide (a.timestamp ≤ b.timestamp)

/-- `ConversationCompactor._tool_context_compaction`
(context_window.py:183-228).  Python's stable `sorted` is `List.mergeSort`. -/
def tool_context_compaction (tc : Message → Nat) (messages : List Message)
    (target_tokens : Int) (strategy : CompactionStrategy) : List Message :=
  let important_messages := messages.filter (importantPred strategy)
  let regular_messages := messages.filter fun msg => !(importantPred strategy msg)
  let important_tokens := sumMessageTokens tc important_messages
  if target_tokens ≤ (important_tokens : Int) then
    chronological_compaction tc important_messages target_tokens strategy
  else
    let remaining_budget : Int := target_tokens - (important_tokens : Int)
    let selected_regular := greedyFillGo tc remaining_budget regular_messages.reverse 0 []
    (important_messages ++ selected_regular).mergeSort tsLe

/-- The strategy registry `self.strategies` (context_window.py:92-96) as a
name-indexed lookup; `none` is the unregistered-name case. -/
def runStrategy (tc : Message → Nat) (name : String) (messages : List Message)
    (target_tokens : Int) (strategy : CompactionStrategy) :
    Option (List Message) :=
  if name = "chronological" then
    some (chronological_compaction tc messages target_tokens strategy)
  else if name = "semantic" then
    some (semantic_compaction tc messages target_tokens strategy)
  else if name = "tool_context" then
    some (tool_context_compaction tc messages target_tokens strategy)
  else none

/-- `ConversationCompactor.compact` (context_window.py:98-123).  The
`ValueError` raised on an unregistered strategy name is the `Except.error`
branch. -/
def ConversationCompactor.compact (tc : Message → Nat)
    (messages : List Message) (target_tokens : Int)
    (strategy : CompactionStrategy) : Except String CompactionResult :=
  match runStrategy tc strategy.name messages target_tokens strategy with
  | none => Except.error ("Unknown compaction strategy: " ++ strategy.name)
  | some compacted_messages =>
    let original_tokens := sumMessageTokens tc messages
    let compacted_tokens := sumMessageTokens tc compacted_messages
    Except.ok
      { original_messages := messages
        compacted_messages := compacted_messages
        tokens_saved := (original_tokens : Int) - (compacted_tokens : Int)
        strategy_used := strategy.name }

/-! ### `context_window.py` — `ContextWindowManager`

The `ConversationManager` constructs its `ContextWindowManager` with the
default `SimpleTokenCounter` (context_window.py:239), so the manager-level
functions below fix `tc := SimpleTokenCounter.count_message_tokens`. -/

/-- `ContextWindowManager.__init__`'s `default_strategy`
(context_window.py:241-248). -/
def default_strategy : CompactionStrategy where
  name := "chronological"
  priority := 1
  preserve_recent_messages := 5
  preserve_system_messages := true
  preserve_tool_results := true
  max_compaction_ratio := mkRat 7 10

/-- The target-token computation of `ContextWindowManager.compact_conversation`
(context_window.py:287-288): `int(max_tokens * (1 - strategy.max_compaction_ratio))`.
Python `int()` truncates toward zero, so with `ratio = num/den` (`den > 0`)
the exact value is `tdiv (max * (den - num)) den` (see the file header on
float truncation; for a ratio ≤ 1 this is the rational floor). -/
def target_tokens_for (strategy : CompactionStrategy) (max_tokens : Nat) : Int :=
  Int.tdiv
    ((max_tokens : Int) *
      ((strategy.max_compaction_ratio.den : Int) - strategy.max_compaction_ratio.num))
    (strategy.max_compaction_ratio.den : Int)

/-- `ContextWindowManager.compact_conversation` (context_window.py:278-311):
derive the target, run the compactor, and return the compacted messages with
their recomputed token total.  `none` is the propagated `ValueError` of an
unregistered strategy name; the compaction callbacks are observational
(their exceptions are caught, context_window.py:299-303). -/
def compact_conversation (st : ConversationState)
    (strategy : CompactionStrategy) : Option (List Message × Nat) :=
  let target_tokens := target_tokens_for strategy st.context_window.max_tokens
  match ConversationCompactor.compact SimpleTokenCounter.count_message_tokens
      st.messages target_tokens strategy with
  | Except.error _ => none
  | Except.ok result =>
    some (result.compacted_messages,
      sumMessageTokens SimpleTokenCounter.count_message_tokens result.compacted_messages)

/-- `ContextWindowManager.check_and_compact` (context_window.py:263-276):
`none` when no compaction is needed, otherwise `compact_conversation`
(whose own failure is modelled as `some none`). -/
def check_and_compact (st : ConversationState) (strategy : CompactionStrategy) :
    Option (Option (List Message × Nat)) :=
  if st.context_window.needs_compaction then some (compact_conversation st strategy)
  else none

/-! ### `manager.py` — actions, reducer, middleware, dispatch -/

/-- The optional entries of an action's `payload` dictionary; `none` models
an absent key (`payload.get(...)` returning `None`). -/
structure ActionPayload where
  message : Option Message := none
  token_count : Option Nat := none
  status : Option ConversationStatus := none
  messages : Option (List Message) := none
  key : Option String := none
  value : Option String := none
  max_tokens : Option Nat := none
deriving DecidableEq, Repr

/-- `StateAction` (manager.py:24-28): a string-typed action with optional
payload. -/
structure StateAction where
  type : String
  payload : Option ActionPayload := none
deriving DecidableEq, Repr

/-- `ConversationReducer.__call__` (manager.py:57-94).  Transitions that the
source gates behind Python truthiness (`if message:`, `if status:`,
`if max_tokens:`) or `if key is not None:` keep those guards; a `Message`
or enum value is always truthy, an integer is falsy exactly when `0`.
The `now` parameter stands for `datetime.now()` inside the state
transition helpers. -/
def ConversationReducer (state : ConversationState) (action : StateAction)
    (now : Nat) : ConversationState :=
  let payload := action.payload.getD {}
  if action.type = "ADD_MESSAGE" then
    match payload.message with
    | some message => state.add_message message (payload.token_count.getD 0) now
    | none => state
  else if action.type = "UPDATE_STATUS" then
    match payload.status with
    | some status => state.update_status status now
    | none => state
  else if action.type = "COMPACT_CONVERSATION" then
    state.compact (payload.messages.getD []) (payload.token_count.getD 0) now
  else if action.type = "UPDATE_METADATA" then
    match payload.key with
    | some key => state.update_metadata key payload.value now
    | none => state
  else if action.type = "UPDATE_CONTEXT_WINDOW" then
    match payload.max_tokens with
    | some max_tokens =>
      if max_tokens = 0 then state
      else { state with
        context_window := { state.context_window with max_tokens := max_tokens } }
    | none => state
  else state

/-- `ValidationMiddleware._validate_action` (manager.py:138-150): an
`ADD_MESSAGE` payload must carry a `Message`, an `UPDATE_STATUS` payload a
`ConversationStatus`; everything else passes. -/
def validate_action (action : StateAction) : Bool :=
  if action.type = "ADD_MESSAGE" then ((action.payload.getD {}).message).isSome
  else if action.type = "UPDATE_STATUS" then ((action.payload.getD {}).status).isSome
  else true

/-- `ValidationMiddleware._validate_state` (manager.py:152-158): token and
message counts must be non-negative (over `Int`, as in the source's checks). -/
def validate_state (state : ConversationState) : Bool :=
  decide (0 ≤ (state.context_window.current_tokens : Int)) &&
    decide (0 ≤ (state.messages.length : Int))

/-- The default middleware pipeline around the reducer
(`StateManagerFactory.create_default`, manager.py:270-282): validation
rejects bad actions and reverts invalid result states
(`ValidationMiddleware.__call__`, manager.py:119-136); logging is purely
observational. -/
def apply_middleware (state : ConversationState) (action : StateAction)
    (now : Nat) : ConversationState :=
  if validate_action action then
    let new_state := ConversationReducer state action now
    if validate_state new_state then new_state else state
  else state

/-- Outcome of running the middleware/reducer pipeline inside
`StateManager.dispatch`'s `try:` block — either a candidate new state or a
raised exception. -/
inductive PipelineOutcome
  | ok (state : ConversationState)
  | exn (message : String)
deriving DecidableEq, Repr

/-- What `StateManager.dispatch` left behind: the manager's `_state` field
afterwards, whether subscribers were notified, and the returned state. -/
structure DispatchResult where
  final_state : ConversationState
  notified : Bool
  returned : ConversationState
deriving DecidableEq, Repr

/-- `StateManager.dispatch` (manager.py:191-205): on a pipeline result that
differs from the current state, install it and notify subscribers; on an
equal result do nothing; on an exception log and return the unchanged prior
state.  The function is total — dispatch never raises to the caller. -/
def StateManager.dispatch (current : ConversationState)
    (outcome : PipelineOutcome) : DispatchResult :=
  match outcome with
  | PipelineOutcome.ok new_state =>
    if new_state = current then
      { final_state := current, notified := false, returned := current }
    else
      { final_state := new_state, notified := true, returned := new_state }
  | PipelineOutcome.exn _ =>
    { final_state := current, notified := false, returned := current }

/-! ### `core.py` — the `ConversationManager` facade -/

/-- `ConversationManager.add_message` (core.py:49-75): build the message,
count its tokens with the context-window manager's counter, and dispatch an
`ADD_MESSAGE` action through the default middleware pipeline.  The
dispatched state becomes the manager's state (the `try/except` and the
equality check in `dispatch` do not change the resulting state value). -/
def ConversationManager.add_message (st : ConversationState)
    (message : Message) (now : Nat) : ConversationState :=
  apply_middleware st
    { type := "ADD_MESSAGE"
      payload := some
        { message := some message
          token_count := some (SimpleTokenCounter.count_message_tokens message) } }
    now

/-- A sequence of `ConversationManager.add_message` calls, each paired with
its `datetime.now()` clock value. -/
def run_add_messages (st : ConversationState) :
    List (Message × Nat) → ConversationState
  | [] => st
  | (message, now) :: rest =>
    run_add_messages (ConversationManager.add_message st message now) rest

/-- `ConversationManager.force_compaction` (core.py:114-137): compact the
current state, dispatch the `COMPACT_CONVERSATION` action (which the
middleware accepts), and build the returned `CompactionResult` from
`self.current_state` — the *post-dispatch* state.  `none` is the
propagated unknown-strategy `ValueError`. -/
def ConversationManager.force_compaction (st : ConversationState)
    (strategy : CompactionStrategy) (now : Nat) :
    Option (CompactionResult × ConversationState) :=
  match compact_conversation st strategy with
  | none => none
  | some (messages, token_count) =>
    let post := apply_middleware st
      { type := "COMPACT_CONVERSATION"
        payload := some { messages := some messages, token_count := some token_count } }
      now
    some
      ({ original_messages := post.messages
         compacted_messages := messages
         tokens_saved := (post.context_window.current_tokens : Int) - (token_count : Int)
         strategy_used := strategy.name }, post)

/-- One round of the auto-compaction subscription
(`ConversationManager._on_state_change`, core.py:162-179): ask
`check_and_compact`; when it yields a compaction, dispatch the
`COMPACT_CONVERSATION` action; exceptions (unknown strategy) are swallowed.
The dispatched action goes through the reducer with a strictly later clock
value (`datetime.now()` advances). -/
def on_state_change (st : ConversationState) : ConversationState :=
  match check_and_compact st default_strategy with
  | none => st
  | some none => st
  | some (some (messages, token_count)) =>
    st.compact messages token_count (st.updated_at + 1)

/-! ### Concrete fixtures used by the claim theorems -/

/-- A message as produced by `Message.create(role, content)` with no
metadata and no tool calls. -/
def plainMessage (id : Nat) (role : MessageRole) (content : String)
    (timestamp : Nat) : Message :=
  { id := id, role := role, content := content, timestamp := timestamp,
    metadata := [], tool_calls := [] }

/-- `tokens_saved` of a `compact` outcome (`0` for the error case) — used
to state concrete facts about `compact` results without binders. -/
def tokensSavedOf : Except String CompactionResult → Int
  | Except.ok r => r.tokens_saved
  | Except.error _ => 0

/-- Token total of the original messages of a `compact` outcome, under
`SimpleTokenCounter`. -/
def originalTokensOf : Except String CompactionResult → Nat
  | Except.ok r =>
    sumMessageTokens SimpleTokenCounter.count_message_tokens r.original_messages
  | Except.error _ => 0

/-- Token total of the compacted messages of a `compact` outcome, under
`SimpleTokenCounter`. -/
def compactedTokensOf : Except String CompactionResult → Nat
  | Except.ok r =>
    sumMessageTokens SimpleTokenCounter.count_message_tokens r.compacted_messages
  | Except.error _ => 0

/-- Modelled from the spec: the sentence "approximates token count as
`round(word_count × 1.3)`" read literally, with `round` as round-half-up
(the tie-breaking convention is irrelevant at the counterexample below,
where the value to round is 3.9). -/
def spec_round_tokens (text : String) : Nat :=
  (13 * wordCount text + 5) / 10

/-- A one-message conversation state used by several concrete theorems. -/
def singleUserState : ConversationState where
  id := 0
  messages := [plainMessage 0 MessageRole.user "hi" 0]
  status := ConversationStatus.active
  context_window := { max_tokens := 4000, current_tokens := 3 }
  token_usage := { total_tokens := 3 }
  metadata := []
  created_at := 0
  updated_at := 0

/-- A `COMPACT_CONVERSATION` action with no payload at all. -/
def compactEmptyAction : StateAction where
  type := "COMPACT_CONVERSATION"
  payload := none

/-- Six three-token system messages.  All of them pass the system filter of
`_chronological_compaction`, and the last five are *also* the preserved
recent suffix, so the compactor emits the overlap twice. -/
def sixSystemMessages : List Message :=
  [plainMessage 0 MessageRole.system "hi" 0,
   plainMessage 1 MessageRole.system "hi" 1,
   plainMessage 2 MessageRole.system "hi" 2,
   plainMessage 3 MessageRole.system "hi" 3,
   plainMessage 4 MessageRole.system "hi" 4,
   plainMessage 5 MessageRole.system "hi" 5]

/-- The chronological strategy with all defaults
(`preserve_recent_messages = 5`, `preserve_system_messages = true`). -/
def chronologicalStrategy : CompactionStrategy where
  name := "chronological"
  priority := 1

/-- A single plain user message, for instantiating the amended C1. -/
def oneUserMessage : List Message := [plainMessage 0 MessageRole.user "hi" 0]

/-- The concrete `CompactionResult` that `compact` produces on
`oneUserMessage` with target 0 (one message is below the recent-suffix
size, so the list is returned unchanged). -/
def oneUserResult : CompactionResult where
  original_messages := oneUserMessage
  compacted_messages := oneUserMessage
  tokens_saved := 0
  strategy_used := "chronological"

/-- Two messages, enough to exceed a preserve-1 suffix. -/
def twoUserMessages : List Message :=
  [plainMessage 0 MessageRole.user "hi" 0, plainMessage 1 MessageRole.user "ho" 1]

/-- The chronological strategy keeping only one recent message. -/
def preserveOneStrategy : CompactionStrategy where
  name := "chronological"
  priority := 1
  preserve_recent_messages := 1

/-- Two tool-role messages whose timestamps are out of order. -/
def twoToolMessagesOutOfOrder : List Message :=
  [plainMessage 0 MessageRole.tool "hi" 2, plainMessage 1 MessageRole.tool "hi" 1]

/-- The tool_context strategy preserving two recent messages. -/
def toolContextStrategy : CompactionStrategy where
  name := "tool_context"
  priority := 1
  preserve_recent_messages := 2

/-- A tool message and a user message in timestamp order. -/
def toolThenUserMessages : List Message :=
  [plainMessage 0 MessageRole.tool "hi" 1, plainMessage 1 MessageRole.user "ho" 2]

/-- The oversized system message: ten words, so 13 content tokens plus the
2-token role overhead. -/
def oversizedSystemMessage : Message :=
  plainMessage 0 MessageRole.system "a a a a a a a a a a" 0

/-- A reachable over-budget state (15 tokens in a 10-token window, 150%
utilization) whose single message can never be compacted away: one message
is below the five-message recent suffix, so chronological compaction
returns it unchanged. -/
def stuckState : ConversationState where
  id := 0
  messages := [oversizedSystemMessage]
  status := ConversationStatus.active
  context_window := { max_tokens := 10, current_tokens := 15 }
  token_usage := { total_tokens := 15 }
  metadata := []
  created_at := 0
  updated_at := 0

/-- The concrete result returned by `force_compaction` on `stuckState`:
both message fields hold the post-dispatch (compacted) list and
`tokens_saved` is 0 even though the window remains over budget. -/
def stuckForceResult : CompactionResult where
  original_messages := [oversizedSystemMessage]
  compacted_messages := [oversizedSystemMessage]
  tokens_saved := 0
  strategy_used := "chronological"

/-! ### Helper lemmas on token sums and the greedy selection loop -/

/-- The `mkRat` in `ContextWindow.utilization` is ordinary rational
division. -/
theorem ContextWindow.utilization_eq (cw : ContextWindow) :
    cw.utilization =
      if 0 < cw.max_tokens then (cw.current_tokens : ℚ) / (cw.max_tokens : ℚ)
      else 0 := by
  unfold ContextWindow.utilization
  rw [Rat.mkRat_eq_div]
  push_cast
  rfl

theorem sumMessageTokens_nil (tc : Message → Nat) : sumMessageTokens tc [] = 0 := rfl

theorem sumMessageTokens_append (tc : Message → Nat) (l₁ l₂ : List Message) :
    sumMessageTokens tc (l₁ ++ l₂) = sumMessageTokens tc l₁ + sumMessageTokens tc l₂ := by
  simp [sumMessageTokens]

theorem sumMessageTokens_reverse (tc : Message → Nat) (l : List Message) :
    sumMessageTokens tc l.reverse = sumMessageTokens tc l := by
  simp [sumMessageTokens, List.sum_reverse]

theorem sumMessageTokens_take_le (tc : Message → Nat) (l : List Message) (k : Nat) :
    sumMessageTokens tc (l.take k) ≤ sumMessageTokens tc l := by
  conv_rhs => rw [← List.take_append_drop k l]
  rw [sumMessageTokens_append]
  exact Nat.le_add_right _ _

theorem sumMessageTokens_drop_le (tc : Message → Nat) (l : List Message) (k : Nat) :
    sumMessageTokens tc (l.drop k) ≤ sumMessageTokens tc l := by
  conv_rhs => rw [← List.take_append_drop k l]
  rw [sumMessageTokens_append]
  exact Nat.le_add_left _ _

/-- Splitting the token sum along a Boolean partition of the list. -/
theorem sumMessageTokens_filter_add (tc : Message → Nat) (p : Message → Bool)
    (l : List Message) :
    sumMessageTokens tc (l.filter p) +
      sumMessageTokens tc (l.filter fun m => !(p m)) = sumMessageTokens tc l := by
  induction l with
  | nil => rfl
  | cons m rest ih =>
    by_cases h : p m <;>
      simp only [List.filter_cons, h, Bool.not_true, Bool.not_false, if_pos, if_neg,
        Bool.false_eq_true, not_false_iff, sumMessageTokens, List.map_cons, List.sum_cons,
        ite_true, ite_false] <;>
      simp only [sumMessageTokens, List.map_cons, List.sum_cons] at ih ⊢ <;>
      omega

/-- The greedy loop always returns some (reversed) prefix of its scan list,
prepended to the accumulator. -/
theorem greedyFillGo_eq_take (tc : Message → Nat) (budget : Int) :
    ∀ (rev : List Message) (current : Int) (acc : List Message),
      ∃ k, greedyFillGo tc budget rev current acc = (rev.take k).reverse ++ acc := by
  intro rev
  induction rev with
  | nil => exact fun current acc => ⟨0, rfl⟩
  | cons m rest ih =>
    intro current acc
    rw [greedyFillGo]
    split
    · obtain ⟨k, hk⟩ := ih (current + (tc m : Int)) (m :: acc)
      refine ⟨k + 1, ?_⟩
      rw [hk]
      simp
    · exact ⟨0, rfl⟩

/-- The messages selected by the greedy loop over a reversed candidate list
cost at most the whole candidate list. -/
theorem greedyFill_sum_le (tc : Message → Nat) (budget : Int) (l : List Message) :
    sumMessageTokens tc (greedyFillGo tc budget l.reverse 0 []) ≤
      sumMessageTokens tc l := by
  obtain ⟨k, hk⟩ := greedyFillGo_eq_take tc budget l.reverse 0 []
  rw [hk, List.append_nil, sumMessageTokens_reverse]
  calc sumMessageTokens tc (l.reverse.take k)
      ≤ sumMessageTokens tc l.reverse := sumMessageTokens_take_le tc l.reverse k
    _ = sumMessageTokens tc l := sumMessageTokens_reverse tc l

theorem sliceLast_sum_le (tc : Message → Nat) (l : List Message) (n : Nat) :
    sumMessageTokens tc (sliceLast l n) ≤ sumMessageTokens tc l := by
  unfold sliceLast
  split
  · exact le_refl _
  · exact sumMessageTokens_drop_le tc l _

/-- When `_chronological_compaction` retains no system messages specially
(its system filter comes back empty — `preserve_system_messages` is off or
the input has no system messages), its output costs at most the input.
With a retained system message inside the recent suffix this fails: the
message is emitted twice (see the C1 counterexample). -/
theorem chronological_sum_le (tc : Message → Nat) (messages : List Message)
    (target_tokens : Int) (s : CompactionStrategy)
    (hsys : messages.filter
      (fun msg => (msg.role == MessageRole.system) && s.preserve_system_messages) = []) :
    sumMessageTokens tc (chronological_compaction tc messages target_tokens s) ≤
      sumMessageTokens tc messages := by
  unfold chronological_compaction
  rw [hsys]
  simp only [List.nil_append, List.length_nil]
  split_ifs with h1 h2
  · exact le_refl _
  · exact sliceLast_sum_le tc messages _
  · rw [sumMessageTokens_append]
    by_cases hp : s.preserve_recent_messages = 0
    · simp [hp, sliceMiddle, sliceLast, greedyFillGo, sumMessageTokens_nil]
    · simp only [sliceMiddle, sliceLast, if_neg hp, List.drop_zero]
      refine le_trans (Nat.add_le_add_right (greedyFill_sum_le tc _ _) _) (le_of_eq ?_)
      rw [← sumMessageTokens_append, List.take_append_drop]

/-- Under the same no-retained-system-messages hypothesis,
`_tool_context_compaction` never costs more tokens than its input: both its
branches emit a permutation of a sub-selection of the input. -/
theorem tool_context_sum_le (tc : Message → Nat) (messages : List Message)
    (target_tokens : Int) (s : CompactionStrategy)
    (hsys : messages.filter
      (fun msg => (msg.role == MessageRole.system) && s.preserve_system_messages) = []) :
    sumMessageTokens tc (tool_context_compaction tc messages target_tokens s) ≤
      sumMessageTokens tc messages := by
  have himp : (messages.filter (importantPred s)).filter
      (fun msg => (msg.role == MessageRole.system) && s.preserve_system_messages) = [] := by
    have hs := (List.filter_sublist (p := importantPred s) messages).filter
      (fun msg => (msg.role == MessageRole.system) && s.preserve_system_messages)
    rw [hsys] at hs
    exact List.eq_nil_of_sublist_nil hs
  have hpart := sumMessageTokens_filter_add tc (importantPred s) messages
  simp only [tool_context_compaction]
  split
  · exact le_trans (chronological_sum_le tc _ _ _ himp) (by omega)
  · calc
      sumMessageTokens tc
          ((messages.filter (importantPred s) ++
            greedyFillGo tc
              (target_tokens -
                (sumMessageTokens tc (messages.filter (importantPred s)) : Int))
              ((messages.filter fun msg => !(importantPred s msg)).reverse) 0
              []).mergeSort tsLe)
        = sumMessageTokens tc
            (messages.filter (importantPred s) ++
              greedyFillGo tc
                (target_tokens -
                  (sumMessageTokens tc (messages.filter (importantPred s)) : Int))
                ((messages.filter fun msg => !(importantPred s msg)).reverse) 0 []) :=
        List.Perm.sum_eq (List.Perm.map tc (List.mergeSort_perm _ _))
      _ = sumMessageTokens tc (messages.filter (importantPred s)) +
            sumMessageTokens tc
              (greedyFillGo tc
                (target_tokens -
                  (sumMessageTokens tc (messages.filter (importantPred s)) : Int))
                ((messages.filter fun msg => !(importantPred s msg)).reverse) 0 []) :=
        sumMessageTokens_append tc _ _
      _ ≤ sumMessageTokens tc (messages.filter (importantPred s)) +
            sumMessageTokens tc (messages.filter fun msg => !(importantPred s msg)) :=
        Nat.add_le_add_left (greedyFill_sum_le tc _ _) _
      _ = sumMessageTokens tc messages := hpart

/-! ### Further helpers -/

/-- Both non-negativity checks of the validation middleware hold for every
state of the embedding (token and message counts are naturals). -/
theorem validate_state_true (state : ConversationState) :
    validate_state state = true := by
  simp [validate_state]

/-- The running-total loop over tool calls is the sum of the mapped
counts. -/
theorem foldl_add_count (f : String → Nat) :
    ∀ (l : List String) (n : Nat),
      l.foldl (fun acc x => acc + f x) n = n + (l.map f).sum
  | [], n => by simp
  | x :: rest, n => by
    simp only [List.foldl_cons, List.map_cons, List.sum_cons]
    rw [foldl_add_count f rest (n + f x)]
    omega

/-! ### Claim C3 — the token-counting formula -/

/-- **C3 counterexample.**  On the three-word text "a b c" the
implementation returns `int(3 * 1.3) = 3` (truncation), while the spec's
`round(3 × 1.3) = round(3.9) = 4`. -/
theorem C3_counterexample :
    SimpleTokenCounter.count_tokens "a b c" = 3 ∧
      spec_round_tokens "a b c" = 4 := by
  decide

/-- **C3 (amended).**  `count_tokens(text)` equals `word_count × 1.3`
truncated (`int()`), i.e. `⌊13 × word_count / 10⌋` — not rounded; and
`count_message_tokens(message)` is `count_tokens(content)` plus the fixed
2-token role overhead, plus the sum of `count_tokens` over the stringified
metadata values, plus the sum of `count_tokens` over the stringified
tool-call descriptors. -/
theorem C3_token_counter_formula :
    (∀ text : String,
      SimpleTokenCounter.count_tokens text = 13 * wordCount text / 10) ∧
    (∀ message : Message,
      SimpleTokenCounter.count_message_tokens message =
        SimpleTokenCounter.count_tokens message.content + 2 +
          (message.metadata.map SimpleTokenCounter.count_tokens).sum +
          (message.tool_calls.map SimpleTokenCounter.count_tokens).sum) := by
  constructor
  · intro text
    rfl
  · intro message
    unfold SimpleTokenCounter.count_message_tokens
    rw [foldl_add_count]
    by_cases h1 : message.metadata.isEmpty <;>
      by_cases h2 : message.tool_calls.isEmpty <;>
      simp_all [List.isEmpty_iff]

/-! ### Claim C6 — unknown strategy names are the only compaction failure -/

/-- **C6.**  `ConversationCompactor.compact` fails (raises `ValueError`,
here `Except.error`) exactly when the strategy name is not one of the
registered names `chronological`, `semantic`, `tool_context`; for every
registered name it returns a `CompactionResult` without raising. -/
theorem C6_unknown_strategy_iff (tc : Message → Nat) (messages : List Message)
    (target_tokens : Int) (s : CompactionStrategy) :
    (∃ r, ConversationCompactor.compact tc messages target_tokens s = Except.ok r) ↔
      (s.name = "chronological" ∨ s.name = "semantic" ∨ s.name = "tool_context") := by
  unfold ConversationCompactor.compact runStrategy
  split_ifs with h1 h2 h3 <;> simp_all

/-! ### Claim C7 — dispatch never raises; exceptions leave everything unchanged -/

/-- **C7.**  `StateManager.dispatch` is total (it never propagates an
exception to the caller), and when the middleware/reducer pipeline raises,
the manager's state is unchanged, no subscriber is notified, and the
unchanged prior state is returned. -/
theorem C7_dispatch_exception_unchanged (current : ConversationState)
    (e : String) :
    StateManager.dispatch current (PipelineOutcome.exn e) =
      { final_state := current, notified := false, returned := current } :=
  rfl

/-! ### Claim C8 — which malformed actions are no-ops -/

/-- **C8 counterexample.**  A `COMPACT_CONVERSATION` action with a missing
payload is *not* a no-op: `payload.get("messages", [])` and
`payload.get("token_count", 0)` default to `[]` and `0`, so the reducer
wipes the message list and the token count (even with an unchanged
clock). -/
theorem C8_counterexample :
    ConversationReducer singleUserState compactEmptyAction
        singleUserState.updated_at ≠ singleUserState ∧
      (ConversationReducer singleUserState compactEmptyAction
        singleUserState.updated_at).messages = [] := by
  decide

/-- **C8 (amended).**  The reducer returns its input state unchanged
(structurally equal, `updated_at` untouched) for every action with an
unrecognized type, and for `ADD_MESSAGE` without a message,
`UPDATE_STATUS` without a status, `UPDATE_METADATA` without a key, and
`UPDATE_CONTEXT_WINDOW` without a (non-zero) `max_tokens` — but *not* for
`COMPACT_CONVERSATION` with a missing payload, which compacts to the empty
message list (see the counterexample). -/
theorem C8_invalid_actions_noop (state : ConversationState)
    (action : StateAction) (now : Nat)
    (h : (action.type ∉ (["ADD_MESSAGE", "UPDATE_STATUS", "COMPACT_CONVERSATION",
          "UPDATE_METADATA", "UPDATE_CONTEXT_WINDOW"] : List String)) ∨
      (action.type = "ADD_MESSAGE" ∧ (action.payload.getD {}).message = none) ∨
      (action.type = "UPDATE_STATUS" ∧ (action.payload.getD {}).status = none) ∨
      (action.type = "UPDATE_METADATA" ∧ (action.payload.getD {}).key = none) ∨
      (action.type = "UPDATE_CONTEXT_WINDOW" ∧
        ((action.payload.getD {}).max_tokens.getD 0 = 0))) :
    ConversationReducer state action now = state := by
  unfold ConversationReducer
  rcases h with h | ⟨h1, h2⟩ | ⟨h1, h2⟩ | ⟨h1, h2⟩ | ⟨h1, h2⟩
  · simp only [List.mem_cons, List.mem_singleton, List.not_mem_nil, or_false,
      not_or] at h
    obtain ⟨hA, hS, hC, hM, hW⟩ := h
    simp [hA, hS, hC, hM, hW]
  · simp [h1, h2]
  · simp [h1, h2]
  · simp [h1, h2]
  · rw [h1]
    cases hmt : (action.payload.getD {}).max_tokens with
    | none => simp [hmt]
    | some mt =>
      rw [hmt] at h2
      simp [hmt, show mt = 0 from h2]

/-! ### Claim C1 — compaction never increases tokens (refuted; amended) -/

/-- **C1 counterexample.**  On six system messages (18 tokens) with target
budget 0 and the default chronological strategy, the compactor returns the
six retained system messages *plus* the five-message recent suffix again:
33 tokens, so `tokens_saved = -15 < 0` and the compacted total strictly
exceeds the original total — refuting the claim for this input. -/
theorem C1_counterexample :
    tokensSavedOf (ConversationCompactor.compact
        SimpleTokenCounter.count_message_tokens sixSystemMessages 0
        chronologicalStrategy) = -15 ∧
      originalTokensOf (ConversationCompactor.compact
        SimpleTokenCounter.count_message_tokens sixSystemMessages 0
        chronologicalStrategy) = 18 ∧
      compactedTokensOf (ConversationCompactor.compact
        SimpleTokenCounter.count_message_tokens sixSystemMessages 0
        chronologicalStrategy) = 33 := by
  decide

/-- **C1 (amended).**  For every input message list, target token budget,
token counter and registered strategy, *provided the strategy retains no
system messages specially* (`preserve_system_messages` is off, or the input
contains no system-role message — otherwise retained system messages can be
duplicated with the recent suffix, see the counterexample), the
`CompactionResult` satisfies `tokens_saved ≥ 0` and the compacted token
total is at most the original token total. -/
theorem C1_compact_never_increases_tokens (tc : Message → Nat)
    (messages : List Message) (target_tokens : Int) (s : CompactionStrategy)
    (r : CompactionResult)
    (hok : ConversationCompactor.compact tc messages target_tokens s =
      Except.ok r)
    (hsys : s.preserve_system_messages = false ∨
      ∀ m ∈ messages, m.role ≠ MessageRole.system) :
    0 ≤ r.tokens_saved ∧
      sumMessageTokens tc r.compacted_messages ≤
        sumMessageTokens tc r.original_messages := by
  have hfilter : messages.filter
      (fun msg => (msg.role == MessageRole.system) && s.preserve_system_messages) = [] := by
    rcases hsys with h | h
    · simp [h]
    · rw [List.filter_eq_nil_iff]
      intro m hm
      simp [h m hm]
  have hrun : ∀ c, runStrategy tc s.name messages target_tokens s = some c →
      sumMessageTokens tc c ≤ sumMessageTokens tc messages := by
    intro c hc
    unfold runStrategy at hc
    split_ifs at hc with h1 h2 h3
    · cases hc
      exact chronological_sum_le tc _ _ _ hfilter
    · cases hc
      exact chronological_sum_le tc _ _ _ hfilter
    · cases hc
      exact tool_context_sum_le tc _ _ _ hfilter
  unfold ConversationCompactor.compact at hok
  cases hr : runStrategy tc s.name messages target_tokens s with
  | none =>
    rw [hr] at hok
    cases hok
  | some c =>
    rw [hr] at hok
    injection hok with hok
    subst hok
    have hle := hrun c hr
    constructor
    · show (0 : Int) ≤
        (sumMessageTokens tc messages : Int) - (sumMessageTokens tc c : Int)
      omega
    · exact hle

/-- Witness for the amended C1 at a concrete input. -/
theorem C1_compact_never_increases_tokens_witness :
    0 ≤ oneUserResult.tokens_saved ∧
      sumMessageTokens SimpleTokenCounter.count_message_tokens
          oneUserResult.compacted_messages ≤
        sumMessageTokens SimpleTokenCounter.count_message_tokens
          oneUserResult.original_messages :=
  C1_compact_never_increases_tokens SimpleTokenCounter.count_message_tokens
    oneUserMessage 0 chronologicalStrategy oneUserResult rfl
    (Or.inr (by decide))

/-! ### Claim C4 — chronological compaction keeps the recent suffix -/

/-- **C4.**  Whenever the input is longer than
`preserve_recent_messages`, the output of chronological compaction contains
exactly the last `preserve_recent_messages` original messages, in their
original order, as a suffix of the output (for every token counter, target
budget and strategy configuration). -/
theorem C4_chronological_recent_suffix (tc : Message → Nat)
    (messages : List Message) (target_tokens : Int) (s : CompactionStrategy)
    (h : s.preserve_recent_messages < messages.length) :
    ∃ pre, chronological_compaction tc messages target_tokens s =
      pre ++ messages.drop (messages.length - s.preserve_recent_messages) := by
  by_cases hp : s.preserve_recent_messages = 0
  · rw [hp, Nat.sub_zero, List.drop_length]
    exact ⟨chronological_compaction tc messages target_tokens s,
      by rw [List.append_nil]⟩
  · have hsl : sliceLast messages s.preserve_recent_messages =
        messages.drop (messages.length - s.preserve_recent_messages) := by
      unfold sliceLast
      rw [if_neg hp]
    unfold chronological_compaction
    rw [if_neg (by omega), hsl]
    dsimp only
    split
    · exact ⟨_, rfl⟩
    · exact ⟨_, rfl⟩

/-- Witness for C4 at a concrete input. -/
theorem C4_chronological_recent_suffix_witness :
    ∃ pre, chronological_compaction SimpleTokenCounter.count_message_tokens
        twoUserMessages 0 preserveOneStrategy =
      pre ++ twoUserMessages.drop
        (twoUserMessages.length - preserveOneStrategy.preserve_recent_messages) :=
  C4_chronological_recent_suffix SimpleTokenCounter.count_message_tokens
    twoUserMessages 0 preserveOneStrategy (by decide)

/-! ### Claim C5 — tool_context output ordering (refuted; amended) -/

/-- **C5 counterexample.**  On two tool messages with timestamps 2, 1 and
target budget 0, the important messages already meet the target, so
tool_context compaction delegates to chronological compaction, which
returns them unchanged and *unsorted* — the output is not non-decreasing in
timestamp. -/
theorem C5_counterexample :
    ¬ List.Pairwise (fun a b : Message => a.timestamp ≤ b.timestamp)
      (tool_context_compaction SimpleTokenCounter.count_message_tokens
        twoToolMessagesOutOfOrder 0 toolContextStrategy) := by
  decide

/-- **C5 (amended).**  The output of tool_context compaction is sorted
non-decreasing by timestamp whenever the token total of the important
messages is strictly below the target budget (the merge branch, which
re-sorts).  In the other branch the compactor delegates to chronological
compaction and does not sort — see the counterexample. -/
theorem C5_tool_context_sorted (tc : Message → Nat) (messages : List Message)
    (target_tokens : Int) (s : CompactionStrategy)
    (h : (sumMessageTokens tc (messages.filter (importantPred s)) : Int) <
      target_tokens) :
    List.Pairwise (fun a b : Message => a.timestamp ≤ b.timestamp)
      (tool_context_compaction tc messages target_tokens s) := by
  unfold tool_context_compaction
  rw [if_neg (by omega)]
  have htrans : ∀ a b c : Message, tsLe a b → tsLe b c → tsLe a c := by
    intro a b c hab hbc
    simp only [tsLe, decide_eq_true_eq] at hab hbc ⊢
    omega
  have htotal : ∀ a b : Message, tsLe a b || tsLe b a := by
    intro a b
    simp only [tsLe, Bool.or_eq_true, decide_eq_true_eq]
    omega
  refine List.Pairwise.imp ?_ (List.sorted_mergeSort htrans htotal _)
  intro a b hab
  simpa [tsLe] using hab

/-- Witness for the amended C5 at a concrete input whose important tokens
(3) are below the target (100). -/
theorem C5_tool_context_sorted_witness :
    List.Pairwise (fun a b : Message => a.timestamp ≤ b.timestamp)
      (tool_context_compaction SimpleTokenCounter.count_message_tokens
        toolThenUserMessages 100 toolContextStrategy) :=
  C5_tool_context_sorted SimpleTokenCounter.count_message_tokens
    toolThenUserMessages 100 toolContextStrategy (by decide)

/-! ### Claim C2 — the token accounting invariant under AddMessage -/

/-- Through the default middleware pipeline, a well-formed `ADD_MESSAGE`
dispatch is exactly the `add_message` state transition with the counted
tokens: validation accepts the action (the payload carries a message) and
accepts the resulting state (counts are non-negative). -/
theorem ConversationManager.add_message_eq (st : ConversationState)
    (message : Message) (now : Nat) :
    ConversationManager.add_message st message now =
      st.add_message message
        (SimpleTokenCounter.count_message_tokens message) now := by
  simp [ConversationManager.add_message, apply_middleware, validate_action,
    ConversationReducer, validate_state_true]

/-- **C2.**  For every sequence of `AddMessage` actions dispatched through
the `ConversationManager` (each message attributed the token count computed
by `count_message_tokens` at dispatch time), every observed state satisfies
`context_window.current_tokens` = sum of `count_message_tokens` over
`state.messages`: the theorem quantifies over all dispatch sequences (with
arbitrary clock values), hence over all observed states. -/
theorem C2_token_accounting_invariant (id max_tokens now0 : Nat)
    (adds : List (Message × Nat)) :
    (run_add_messages (ConversationState.create id max_tokens now0)
        adds).context_window.current_tokens =
      sumMessageTokens SimpleTokenCounter.count_message_tokens
        (run_add_messages (ConversationState.create id max_tokens now0)
          adds).messages := by
  have key : ∀ (adds : List (Message × Nat)) (st : ConversationState),
      st.context_window.current_tokens =
        sumMessageTokens SimpleTokenCounter.count_message_tokens st.messages →
      (run_add_messages st adds).context_window.current_tokens =
        sumMessageTokens SimpleTokenCounter.count_message_tokens
          (run_add_messages st adds).messages := by
    intro adds
    induction adds with
    | nil => exact fun st h => h
    | cons p rest ih =>
      intro st h
      obtain ⟨message, now⟩ := p
      show (run_add_messages (ConversationManager.add_message st message now)
          rest).context_window.current_tokens = _
      apply ih
      rw [ConversationManager.add_message_eq]
      show st.context_window.current_tokens +
          SimpleTokenCounter.count_message_tokens message =
        sumMessageTokens SimpleTokenCounter.count_message_tokens
          (st.messages ++ [message])
      rw [sumMessageTokens_append, h]
      rfl
  exact key adds _ rfl

/-! ### Claim C9 — termination of the auto-compaction chain (refuted; amended) -/

/-- `compact_conversation` with the default (registered) chronological
strategy always succeeds, returning the chronological compaction of the
state's messages and its recomputed token total. -/
theorem compact_conversation_default (st : ConversationState) :
    compact_conversation st default_strategy =
      some (chronological_compaction SimpleTokenCounter.count_message_tokens
          st.messages
          (target_tokens_for default_strategy st.context_window.max_tokens)
          default_strategy,
        sumMessageTokens SimpleTokenCounter.count_message_tokens
          (chronological_compaction SimpleTokenCounter.count_message_tokens
            st.messages
            (target_tokens_for default_strategy st.context_window.max_tokens)
            default_strategy)) :=
  rfl

/-- One auto-compaction round in closed form: nothing happens below the
threshold; above it, the state is compacted to the chronological compaction
of its messages, with the clock advanced. -/
theorem on_state_change_eq (st : ConversationState) :
    on_state_change st =
      if st.context_window.needs_compaction then
        st.compact
          (chronological_compaction SimpleTokenCounter.count_message_tokens
            st.messages
            (target_tokens_for default_strategy st.context_window.max_tokens)
            default_strategy)
          (sumMessageTokens SimpleTokenCounter.count_message_tokens
            (chronological_compaction SimpleTokenCounter.count_message_tokens
              st.messages
              (target_tokens_for default_strategy st.context_window.max_tokens)
              default_strategy))
          (st.updated_at + 1)
      else st := by
  unfold on_state_change check_and_compact
  rw [compact_conversation_default]
  by_cases hn : st.context_window.needs_compaction = true
  · rw [if_pos hn, if_pos hn]
  · rw [if_neg hn, if_neg hn]

/-- When chronological compaction leaves the message list fixed and the
resulting state still needs compaction, one further round reproduces the
same messages and token count, only advancing the clock. -/
theorem on_state_change_repeat (st : ConversationState) (x : Nat)
    (hfix : chronological_compaction SimpleTokenCounter.count_message_tokens
        st.messages
        (target_tokens_for default_strategy st.context_window.max_tokens)
        default_strategy = st.messages)
    (hne : (st.compact st.messages
        (sumMessageTokens SimpleTokenCounter.count_message_tokens st.messages)
        x).context_window.needs_compaction = true) :
    on_state_change (st.compact st.messages
        (sumMessageTokens SimpleTokenCounter.count_message_tokens st.messages)
        x) =
      st.compact st.messages
        (sumMessageTokens SimpleTokenCounter.count_message_tokens st.messages)
        (x + 1) := by
  rw [on_state_change_eq, if_pos hne]
  simp only [ConversationState.compact]
  rw [hfix]

/-- Each auto-compaction round on `stuckState` only advances the clock. -/
theorem on_state_change_stuck (n : Nat) :
    on_state_change { stuckState with updated_at := n } =
      { stuckState with updated_at := n + 1 } := by
  rw [on_state_change_eq]
  have hc : ({ stuckState with updated_at := n } :
      ConversationState).context_window.needs_compaction = true := by
    show stuckState.context_window.needs_compaction = true
    decide
  rw [if_pos hc]
  show ({ stuckState with updated_at := n } : ConversationState).compact
      (chronological_compaction SimpleTokenCounter.count_message_tokens
        [oversizedSystemMessage] (target_tokens_for default_strategy 10)
        default_strategy)
      (sumMessageTokens SimpleTokenCounter.count_message_tokens
        (chronological_compaction SimpleTokenCounter.count_message_tokens
          [oversizedSystemMessage] (target_tokens_for default_strategy 10)
          default_strategy))
      (n + 1) = { stuckState with updated_at := n + 1 }
  have htgt : target_tokens_for default_strategy 10 = 3 := by decide
  rw [htgt]
  have hchron : chronological_compaction SimpleTokenCounter.count_message_tokens
      [oversizedSystemMessage] 3 default_strategy = [oversizedSystemMessage] := by
    decide
  rw [hchron]
  have hsum : sumMessageTokens SimpleTokenCounter.count_message_tokens
      [oversizedSystemMessage] = 15 := by decide
  rw [hsum]
  rfl

/-- Every iterate of the auto-compaction round on `stuckState` is the same
over-budget state with an advanced clock. -/
theorem stuckState_iterate (n : Nat) :
    (on_state_change)^[n] stuckState = { stuckState with updated_at := n } := by
  induction n with
  | zero => rfl
  | succ k ih => rw [Function.iterate_succ_apply', ih, on_state_change_stuck]

/-- **C9 counterexample.**  From `stuckState` — reachable, with
`needs_compaction = true` — no finite number of auto-compaction rounds ever
reaches a state with `needs_compaction = false`: every round dispatches a
`COMPACT_CONVERSATION` that reproduces the same over-budget state, and the
chain recurses unboundedly. -/
theorem C9_counterexample :
    ¬ ∃ n : Nat, ((on_state_change)^[n]
      stuckState).context_window.needs_compaction = false := by
  rintro ⟨n, hn⟩
  rw [stuckState_iterate] at hn
  have ht : ({ stuckState with updated_at := n } :
      ConversationState).context_window.needs_compaction = true := by
    show stuckState.context_window.needs_compaction = true
    decide
  rw [ht] at hn
  cases hn

/-- **C9 (amended).**  The auto-compaction chain has no termination guard:
whenever one round leaves the message list unchanged while the resulting
state still has `needs_compaction = true`, every later round reproduces the
same messages and token count, so the chain never reaches
`needs_compaction = false` — it terminates only if some round brings
utilization below the threshold. -/
theorem C9_auto_compaction_unbounded (st : ConversationState)
    (hmsg : (on_state_change st).messages = st.messages)
    (hneeds : (on_state_change st).context_window.needs_compaction = true) :
    ∀ n : Nat, 1 ≤ n →
      ((on_state_change)^[n] st).context_window.needs_compaction = true := by
  intro n hn1
  by_cases h0 : st.context_window.needs_compaction = true
  · have hst1 : on_state_change st =
        st.compact
          (chronological_compaction SimpleTokenCounter.count_message_tokens
            st.messages
            (target_tokens_for default_strategy st.context_window.max_tokens)
            default_strategy)
          (sumMessageTokens SimpleTokenCounter.count_message_tokens
            (chronological_compaction SimpleTokenCounter.count_message_tokens
              st.messages
              (target_tokens_for default_strategy st.context_window.max_tokens)
              default_strategy))
          (st.updated_at + 1) := by
      rw [on_state_change_eq, if_pos h0]
    have hfix : chronological_compaction SimpleTokenCounter.count_message_tokens
        st.messages
        (target_tokens_for default_strategy st.context_window.max_tokens)
        default_strategy = st.messages := by
      rw [hst1] at hmsg
      exact hmsg
    rw [hfix] at hst1
    have hneeds' : (st.compact st.messages
        (sumMessageTokens SimpleTokenCounter.count_message_tokens st.messages)
        (st.updated_at + 1)).context_window.needs_compaction = true := by
      rw [← hst1]
      exact hneeds
    have hiter : ∀ k : Nat, (on_state_change)^[k + 1] st =
        st.compact st.messages
          (sumMessageTokens SimpleTokenCounter.count_message_tokens st.messages)
          (st.updated_at + 1 + k) := by
      intro k
      induction k with
      | zero => simpa using hst1
      | succ j ih =>
        rw [show j + 1 + 1 = (j + 1) + 1 from rfl,
          Function.iterate_succ_apply', ih,
          on_state_change_repeat st (st.updated_at + 1 + j) hfix hneeds']
        rfl
    obtain ⟨m, rfl⟩ : ∃ m, n = m + 1 := ⟨n - 1, by omega⟩
    rw [hiter m]
    exact hneeds'
  · have hid : on_state_change st = st := by
      rw [on_state_change_eq, if_neg h0]
    rw [hid] at hneeds
    exact absurd hneeds h0

/-- Witness for the amended C9 at the concrete stuck state: the hypotheses
hold (the round keeps the single oversized message and stays over budget),
and the first iterate still needs compaction. -/
theorem C9_auto_compaction_unbounded_witness :
    ((on_state_change)^[1] stuckState).context_window.needs_compaction = true :=
  C9_auto_compaction_unbounded stuckState rfl rfl 1 (by decide)

/-! ### Claim C10 — force_compaction reports against the post-dispatch state -/

/-- Through the default middleware pipeline, a `COMPACT_CONVERSATION`
dispatch with messages and token count is exactly the `compact` state
transition: validation has no action check for this type, and the resulting
state passes the non-negativity checks. -/
theorem apply_middleware_compact (st : ConversationState)
    (messages : List Message) (token_count : Nat) (now : Nat) :
    apply_middleware st
      { type := "COMPACT_CONVERSATION"
        payload := some { messages := some messages, token_count := some token_count } }
      now = st.compact messages token_count now := by
  simp [apply_middleware, validate_action, ConversationReducer, validate_state_true]

/-- **C10.**  Whenever `force_compaction` succeeds (its dispatched
`COMPACT_CONVERSATION` action is applied, with no intervening state
change), the returned `CompactionResult` is computed from the post-dispatch
state: `tokens_saved` equals the post-dispatch `current_tokens` minus the
recomputed token count — that is, `0` — and `original_messages` is the
already-compacted post-dispatch message list (equal to
`compacted_messages`), not the pre-compaction one. -/
theorem C10_force_compaction_post_dispatch (st : ConversationState)
    (strategy : CompactionStrategy) (now : Nat) (r : CompactionResult)
    (post : ConversationState)
    (h : ConversationManager.force_compaction st strategy now = some (r, post)) :
    r.tokens_saved = 0 ∧ r.original_messages = post.messages ∧
      r.original_messages = r.compacted_messages := by
  unfold ConversationManager.force_compaction at h
  cases hc : compact_conversation st strategy with
  | none =>
    rw [hc] at h
    cases h
  | some p =>
    obtain ⟨messages, token_count⟩ := p
    rw [hc] at h
    dsimp only at h
    rw [apply_middleware_compact] at h
    injection h with h
    injection h with h1 h2
    subst h1
    subst h2
    refine ⟨?_, rfl, rfl⟩
    show ((st.compact messages token_count
        now).context_window.current_tokens : Int) - (token_count : Int) = 0
    show ((token_count : Nat) : Int) - (token_count : Int) = 0
    omega

/-- Witness for C10 at a concrete input. -/
theorem C10_force_compaction_post_dispatch_witness :
    stuckForceResult.tokens_saved = 0 ∧
      stuckForceResult.original_messages =
        ({ stuckState with updated_at := 7 } : ConversationState).messages ∧
      stuckForceResult.original_messages = stuckForceResult.compacted_messages :=
  C10_force_compaction_post_dispatch stuckState default_strategy 7
    stuckForceResult { stuckState with updated_at := 7 } (by decide)

/-- Witness for the amended C8 at a concrete unrecognized action. -/
theorem C8_invalid_actions_noop_witness :
    ConversationReducer singleUserState { type := "NOPE" } 42 = singleUserState :=
  C8_invalid_actions_noop singleUserState { type := "NOPE" } 42 (Or.inl (by decide))
